import Mathlib

/-!
Shallow embedding of the notebook `2-mean-absolute-deviation.ipynb`
(repository FatTailOptionPricing).

Numpy/scipy float values are modelled as `Option ℝ`: `some x` is a finite
real result, `none` models a non-finite IEEE result (NaN, or the value
produced by a division by zero).  The random sources consumed by
`scipy.stats.norm.rvs` and `scipy.stats.binom.rvs` are modelled as abstract
streams: a stream of standard-normal draws (`norm.rvs loc scale` returns
`loc + scale * z` for the next draw `z`) and a stream of uniform `[0, 1)`
draws (a Bernoulli(q) indicator is `1` exactly when the uniform draw is
below `q`, the inverse-CDF construction).
-/

noncomputable section

/-- A numpy float result: `some x` is a finite real, `none` a non-finite
result (NaN, or the outcome of dividing by zero). -/
abbrev RVal := Option ℝ

/-- np.mean over a float array: the sum divided by the length; NaN on the
empty array. -/
def npMean (data : List ℝ) : RVal :=
  if data.length = 0 then none else some (data.sum / (data.length : ℝ))

/-- np.var over a float array (default ddof = 0): the mean of the squared
deviations from the mean. -/
def npVar (data : List ℝ) : RVal :=
  (npMean data).bind fun m => npMean (data.map fun x => (x - m) ^ 2)

/-- mad, from the notebook:
`mean = np.mean(data); return np.mean(np.abs(data - mean))`. -/
def mad (data : List ℝ) : RVal :=
  (npMean data).bind fun m => npMean (data.map fun x => |x - m|)

/-- scipy.stats.tvar (no limits, ddof = 1): the sum of squared deviations
from the mean divided by `n - 1`; NaN whenever `n ≤ 1` (mean of an empty
array, or a zero `n - ddof` denominator). -/
def tvar (data : List ℝ) : RVal :=
  (npMean data).bind fun m =>
    if data.length ≤ 1 then none
    else some ((data.map fun x => (x - m) ^ 2).sum / ((data.length : ℝ) - 1))

/-- scipy.stats.tstd: the square root of `tvar`; NaN propagates. -/
def tstd (data : List ℝ) : RVal := (tvar data).map Real.sqrt

/-- An array of float results is a genuine real array exactly when no entry
is non-finite. -/
def seqV : List RVal → Option (List ℝ)
  | [] => some []
  | none :: _ => none
  | some x :: t => (seqV t).map (fun l => x :: l)

/-- np.mean over an array of float results: any NaN entry poisons the mean. -/
def npMeanV (l : List RVal) : RVal := (seqV l).bind npMean

/-- np.var over an array of float results: any NaN entry poisons the
variance. -/
def npVarV (l : List RVal) : RVal := (seqV l).bind npVar

/-- Float division: the result is finite only when both operands are finite
and the divisor is nonzero. -/
def fdiv : RVal → RVal → RVal
  | some a, some b => if b = 0 then none else some (a / b)
  | _, _ => none

/-- get_efficiency, from the notebook:
`np.var(data) / (np.mean(data) ** 2)`. -/
def get_efficiency (data : List RVal) : RVal :=
  fdiv (npVarV data) ((npMeanV data).map (fun m => m ^ 2))

/-- The underlying random source: `gauss` is the stream of standard-normal
draws consumed by `scipy.stats.norm.rvs`, `unif` the stream of uniform
`[0, 1)` draws consumed (by inverse CDF) by `scipy.stats.binom.rvs`. -/
structure RandStream where
  gauss : ℕ → ℝ
  unif : ℕ → ℝ

/-- scipy.stats.norm.rvs(loc, scale, size): `loc + scale * z` over the next
`size` standard-normal draws, read from stream `g` starting at offset
`off`. -/
def norm_rvs (loc scale : ℝ) (size : ℕ) (g : ℕ → ℝ) (off : ℕ) : List ℝ :=
  (List.range size).map fun k => loc + scale * g (off + k)

/-- scipy.stats.binom.rvs(n = 1, p = q, size): Bernoulli(q) indicators by
inverse CDF over the uniform stream `u`, starting at offset `off`. -/
def binom_rvs (q : ℝ) (size : ℕ) (u : ℕ → ℝ) (off : ℕ) : List ℝ :=
  (List.range size).map fun k => if u (off + k) < q then 1 else 0

/-- two_norms, from the notebook: `sigma_norm = 1`, `sigma_spike = 1 + a`,
`X_norm = norm.rvs(0, sigma_norm, N)`, `X_spike = norm.rvs(0, sigma_spike, N)`,
`i = binom.rvs(1, 1 - p, N)`, and `X = i * X_norm + (1 - i) * X_spike`.
The two `norm.rvs` calls consume consecutive blocks of the gaussian stream
starting at `goff`; the `binom.rvs` call reads the uniform stream at
`uoff`. -/
def two_norms (num_samples : ℕ) (a p : ℝ) (rs : RandStream)
    (goff uoff : ℕ) : List ℝ :=
  let mean : ℝ := 0
  let sigma_norm : ℝ := 1
  let sigma_spike : ℝ := 1 + a
  let X_norm := norm_rvs mean sigma_norm num_samples rs.gauss goff
  let X_spike := norm_rvs mean sigma_spike num_samples rs.gauss (goff + num_samples)
  let i := binom_rvs (1 - p) num_samples rs.unif uoff
  List.zipWith (· + ·) (List.zipWith (· * ·) i X_norm)
    (List.zipWith (· * ·) (i.map (fun b => 1 - b)) X_spike)

/-- get_efficiency_sample batch size: `num_samples = 1_000` in the
notebook. -/
def num_samples : ℕ := 1000

/-- get_efficiency_sample batch count: `num_sets_of_samples = 10_000` in the
notebook. -/
def num_sets_of_samples : ℕ :=  10000

/-- sets_of_samples, from the notebook:
`[two_norms(num_samples, a, p) for _ in range(num_sets_of_samples)]`.
Call `k` consumes the gaussian draws `[2*N*k, 2*N*(k+1))` and the uniform
draws `[N*k, N*(k+1))` of the shared stream. -/
def sets_of_samples (a p : ℝ) (rs : RandStream) : List (List ℝ) :=
  (List.range num_sets_of_samples).map fun k =>
    two_norms num_samples a p rs (2 * num_samples * k) (num_samples * k)

/-- stds, from the notebook: `[tstd(s) for s in sets_of_samples]`. -/
def stds (a p : ℝ) (rs : RandStream) : List RVal :=
  (sets_of_samples a p rs).map tstd

/-- mads, from the notebook: `[mad(s) for s in sets_of_samples]`. -/
def mads (a p : ℝ) (rs : RandStream) : List RVal :=
  (sets_of_samples a p rs).map mad

/-- get_efficiency_sample, from the notebook (defaults `a = 0`, `p = 0`):
`get_efficiency(stds) / get_efficiency(mads)`. -/
def get_efficiency_sample (a p : ℝ) (rs : RandStream) : RVal :=
  fdiv (get_efficiency (stds a p rs)) (get_efficiency (mads a p rs))

/-- The Relative Efficiency Estimator as the spec words it (section 4.3):
`M` independent Mixture Sampler calls, each producing one batch of size `N`;
MAD and STD per batch; `efficiency(array) = variance(array) / mean(array)^2`;
result `= efficiency(STD array) / efficiency(MAD array)`. -/
def relativeEfficiencySpec (N M : ℕ) (a p : ℝ) (rs : RandStream) : RVal :=
  let batches := (List.range M).map fun k => two_norms N a p rs (2 * N * k) (N * k)
  fdiv (get_efficiency (batches.map tstd)) (get_efficiency (batches.map mad))

end
section Helpers

/-- Zipping two maps over the same `List.range` is a single map. -/
theorem zipWith_map_range (f : ℝ → ℝ → ℝ) (g h : ℕ → ℝ) (N : ℕ) :
    List.zipWith f ((List.range N).map g) ((List.range N).map h) =
      (List.range N).map fun k => f (g k) (h k) := by
  rw [List.zipWith_map, List.zipWith_same]

/-- two_norms written as a single map over the sample index. -/
theorem two_norms_eq_map (N : ℕ) (a p : ℝ) (rs : RandStream) (goff uoff : ℕ) :
    two_norms N a p rs goff uoff = (List.range N).map fun k =>
      (if rs.unif (uoff + k) < 1 - p then (1 : ℝ) else 0) * (0 + 1 * rs.gauss (goff + k)) +
        (1 - if rs.unif (uoff + k) < 1 - p then (1 : ℝ) else 0) *
          (0 + (1 + a) * rs.gauss (goff + N + k)) := by
  unfold two_norms norm_rvs binom_rvs
  simp only [List.map_map, Function.comp_def, zipWith_map_range]

/-- Each two_norms batch has exactly `num_samples` elements. -/
theorem two_norms_length (N : ℕ) (a p : ℝ) (rs : RandStream) (goff uoff : ℕ) :
    (two_norms N a p rs goff uoff).length = N := by
  rw [two_norms_eq_map]; simp

/-- np.mean of a non-empty array is the finite value sum / length. -/
theorem npMean_nonempty (l : List ℝ) (h : l ≠ []) :
    npMean l = some (l.sum / (l.length : ℝ)) := by
  unfold npMean
  rw [if_neg (fun hh => h (List.length_eq_zero.mp hh))]

/-- mad of a non-empty batch is the finite mean of absolute deviations. -/
theorem mad_nonempty (batch : List ℝ) (h : batch ≠ []) :
    mad batch = some ((batch.map fun x =>
      |x - batch.sum / (batch.length : ℝ)|).sum / (batch.length : ℝ)) := by
  unfold mad
  rw [npMean_nonempty batch h]
  have hmap : (batch.map fun x => |x - batch.sum / (batch.length : ℝ)|) ≠ [] := by
    simpa using h
  rw [Option.some_bind, npMean_nonempty _ hmap, List.length_map]

/-- tvar of a batch with at least two elements is finite. -/
theorem tvar_of_two_le (batch : List ℝ) (h : 2 ≤ batch.length) :
    tvar batch = some ((batch.map fun x =>
      (x - batch.sum / (batch.length : ℝ)) ^ 2).sum / ((batch.length : ℝ) - 1)) := by
  unfold tvar
  rw [npMean_nonempty batch (by intro hb; rw [hb] at h; simp at h)]
  rw [Option.some_bind, if_neg (by omega)]

end Helpers

/-- C6: for every non-empty batch of reals, mad(batch) equals the mean over
the batch of the absolute difference to the batch mean, i.e.
`(1/n) * Σ |x_i − mean(batch)|` with `mean(batch) = (Σ x_i) / n`. -/
theorem mad_is_mean_absolute_deviation (batch : List ℝ) (h : batch ≠ []) :
    mad batch = some ((1 / (batch.length : ℝ)) *
      (batch.map fun x => |x - batch.sum / (batch.length : ℝ)|).sum) := by
  rw [mad_nonempty batch h, one_div, inv_mul_eq_div]

/-- Witness for C6 at the concrete batch [1, 3]: mean 2, deviations 1 and 1,
mad 1. -/
theorem mad_is_mean_absolute_deviation_witness : mad [(1 : ℝ), 3] = some 1 := by
  rw [mad_is_mean_absolute_deviation [(1 : ℝ), 3] (by simp)]
  norm_num

/-- C7: mad of a non-empty batch is a finite non-negative real, and tstd of
a batch with at least two elements is a finite non-negative real. -/
theorem mad_tstd_nonneg (batch : List ℝ) :
    (batch ≠ [] → ∃ r, mad batch = some r ∧ 0 ≤ r) ∧
    (2 ≤ batch.length → ∃ r, tstd batch = some r ∧ 0 ≤ r) := by
  constructor
  · intro h
    refine ⟨_, mad_nonempty batch h, div_nonneg ?_ (Nat.cast_nonneg _)⟩
    refine List.sum_nonneg fun x hx => ?_
    obtain ⟨y, -, rfl⟩ := List.mem_map.mp hx
    exact abs_nonneg _
  · intro h
    refine ⟨Real.sqrt ((batch.map fun x =>
      (x - batch.sum / (batch.length : ℝ)) ^ 2).sum / ((batch.length : ℝ) - 1)),
      ?_, Real.sqrt_nonneg _⟩
    rw [tstd, tvar_of_two_le batch h, Option.map_some']

/-- Witness for C7 at the concrete batch [0, 1]. -/
theorem mad_tstd_nonneg_witness :
    (∃ r, mad [(0 : ℝ), 1] = some r ∧ 0 ≤ r) ∧
      (∃ r, tstd [(0 : ℝ), 1] = some r ∧ 0 ≤ r) :=
  ⟨(mad_tstd_nonneg [(0 : ℝ), 1]).1 (by simp),
    (mad_tstd_nonneg [(0 : ℝ), 1]).2 (by simp)⟩

/-- Counterexample to C2 as stated: tstd fails (yields the non-finite NaN
value, modelled `none`) on the non-empty singleton batch [1], because its
`n − 1` denominator is zero; so it is not true that the dispersion
estimators fail only on an empty batch. -/
theorem tstd_singleton_is_nan :
    tstd [(1 : ℝ)] = none ∧ ([(1 : ℝ)] : List ℝ) ≠ [] := by
  constructor
  · unfold tstd tvar npMean
    norm_num
  · simp

/-- C2 (amended): mad and tstd are pure reductions (they are functions of
the batch alone); mad yields the non-error NaN value exactly on the empty
batch, and tstd yields the non-error NaN value exactly on batches with
fewer than two elements; neither failure is signalled as an error — the
NaN value `none` is silently returned. -/
theorem mad_tstd_nan_exactly (batch : List ℝ) :
    (mad batch = none ↔ batch = []) ∧ (tstd batch = none ↔ batch.length ≤ 1) := by
  rcases eq_or_ne batch [] with rfl | h
  · refine ⟨by simp [mad, npMean], by simp [tstd, tvar, npMean]⟩
  · constructor
    · simp [mad_nonempty batch h, h]
    · rcases Nat.lt_or_ge batch.length 2 with h2 | h2
      · have h1 : batch.length = 1 := by
          have : batch.length ≠ 0 := fun hh => h (List.length_eq_zero.mp hh)
          omega
        constructor
        · intro _; omega
        · intro _
          unfold tstd tvar
          rw [npMean_nonempty batch h, Option.some_bind, if_pos (by omega)]
          rfl
      · simp [tstd, tvar_of_two_le batch h2]
        omega
section Helpers2

/-- seqV of a constant all-finite array extracts the constant real array. -/
theorem seqV_replicate_some (n : ℕ) (x : ℝ) :
    seqV (List.replicate n (some x)) = some (List.replicate n x) := by
  induction n with
  | zero => rfl
  | succ m ih => rw [List.replicate_succ, List.replicate_succ, seqV, ih, Option.map_some']

/-- Float division by a zero divisor is non-finite whatever the numerator. -/
theorem fdiv_some_zero (v : RVal) : fdiv v (some 0) = none := by
  cases v with
  | none => rfl
  | some a => rw [fdiv, if_pos rfl]

end Helpers2

/-- C5: when every batch has size 1, mad of each batch is exactly 0, so the
MAD dispersion array is all zeros, its mean is 0, the divisor mean² used by
get_efficiency is 0, and get_efficiency hits the division-by-zero
condition, returning the non-finite value (`none`, numpy's silent NaN). -/
theorem mad_array_zero_of_singleton_batches (sets : List (List ℝ))
    (hne : sets ≠ []) (h1 : ∀ s ∈ sets, s.length = 1) :
    sets.map mad = List.replicate sets.length (some 0) ∧
    npMeanV (sets.map mad) = some 0 ∧
    (npMeanV (sets.map mad)).map (fun m => m ^ 2) = some 0 ∧
    get_efficiency (sets.map mad) = none := by
  have hmad : ∀ s ∈ sets, mad s = some 0 := by
    intro s hs
    obtain ⟨x, rfl⟩ := List.length_eq_one.mp (h1 s hs)
    rw [mad_nonempty [x] (by simp)]
    norm_num
  have hmap : sets.map mad = List.replicate sets.length (some 0) := by
    rw [List.eq_replicate_iff]
    refine ⟨by simp, fun b hb => ?_⟩
    obtain ⟨s, hs, rfl⟩ := List.mem_map.mp hb
    exact hmad s hs
  have hlen : sets.length ≠ 0 := fun hh => hne (List.length_eq_zero.mp hh)
  have hmean : npMeanV (sets.map mad) = some 0 := by
    rw [hmap, npMeanV, seqV_replicate_some, Option.some_bind,
      npMean_nonempty _ (by simpa using hlen)]
    simp
  refine ⟨hmap, hmean, by rw [hmean]; norm_num, ?_⟩
  rw [get_efficiency, hmean]
  norm_num [fdiv_some_zero]

/-- Witness for C5 with the single batch [5]. -/
theorem mad_array_zero_of_singleton_batches_witness :
    [[(5 : ℝ)]].map mad = List.replicate [[(5 : ℝ)]].length (some 0) ∧
    npMeanV ([[(5 : ℝ)]].map mad) = some 0 ∧
    (npMeanV ([[(5 : ℝ)]].map mad)).map (fun m => m ^ 2) = some 0 ∧
    get_efficiency ([[(5 : ℝ)]].map mad) = none :=
  mad_array_zero_of_singleton_batches [[(5 : ℝ)]] (by simp) (by simp)

/-- C9: stds and mads each carry one entry per drawn batch, and both have
the same length as the batch list, namely num_sets_of_samples = 10000. -/
theorem stds_mads_equal_length (a p : ℝ) (rs : RandStream) :
    (stds a p rs).length = (sets_of_samples a p rs).length ∧
    (mads a p rs).length = (sets_of_samples a p rs).length ∧
    (stds a p rs).length = 10000 ∧ (mads a p rs).length = 10000 := by
  refine ⟨by rw [stds, List.length_map], by rw [mads, List.length_map], ?_, ?_⟩ <;>
    simp [stds, mads, sets_of_samples, num_sets_of_samples]

/-- C3: get_efficiency_sample is exactly the spec's Relative Efficiency
Estimator with M = 10000 and N = 1000: it draws the batches
`two_norms 1000 a p` for the 10000 indices of `List.range 10000`, each of
length 1000, applies tstd and mad batchwise, and returns
`fdiv (get_efficiency stds) (get_efficiency mads)` where
`get_efficiency data = fdiv (np.var data) ((np.mean data)^2)`. -/
theorem get_efficiency_sample_is_spec (a p : ℝ) (rs : RandStream) :
    get_efficiency_sample a p rs = relativeEfficiencySpec 1000 10000 a p rs ∧
    sets_of_samples a p rs =
      (List.range 10000).map (fun k => two_norms 1000 a p rs (2 * 1000 * k) (1000 * k)) ∧
    (∀ goff uoff : ℕ, (two_norms 1000 a p rs goff uoff).length = 1000) ∧
    get_efficiency_sample a p rs =
      fdiv (get_efficiency ((sets_of_samples a p rs).map tstd))
        (get_efficiency ((sets_of_samples a p rs).map mad)) :=
  ⟨rfl, rfl, fun goff uoff => two_norms_length 1000 a p rs goff uoff, rfl⟩

/-- C8: the estimator output is a pure function of the parameters and the
underlying random stream; two runs over pointwise-identical streams (as
produced by the same seed) return identical output. -/
theorem get_efficiency_sample_deterministic (a p : ℝ) (rs rs' : RandStream)
    (hg : ∀ n, rs.gauss n = rs'.gauss n) (hu : ∀ n, rs.unif n = rs'.unif n) :
    get_efficiency_sample a p rs = get_efficiency_sample a p rs' := by
  obtain ⟨g, u⟩ := rs
  obtain ⟨g', u'⟩ := rs'
  have h1 : g = g' := funext hg
  have h2 : u = u' := funext hu
  subst h1
  subst h2
  rfl

/-- Witness for C8 over a concrete stream. -/
theorem get_efficiency_sample_deterministic_witness :
    get_efficiency_sample 0 (1/2) ⟨fun _ => 1, fun n => (n : ℝ)⟩ =
      get_efficiency_sample 0 (1/2) ⟨fun _ => 1, fun n => (n : ℝ)⟩ :=
  get_efficiency_sample_deterministic 0 (1/2) _ _ (fun _ => rfl) (fun _ => rfl)

/-- C10: when p = 0 every component-selection indicator equals 1 (a uniform
draw in [0, 1) is always below q = 1 − 0), so the returned sample is the
standard-normal draw X_norm elementwise, and over the same underlying
stream the output of two_norms is identical for every value of a. -/
theorem two_norms_p_zero (N : ℕ) (a : ℝ) (rs : RandStream) (goff uoff : ℕ)
    (h : ∀ k, rs.unif k < 1) :
    binom_rvs (1 - 0) N rs.unif uoff = List.replicate N 1 ∧
    two_norms N a 0 rs goff uoff = norm_rvs 0 1 N rs.gauss goff ∧
    (∀ a' : ℝ, two_norms N a 0 rs goff uoff = two_norms N a' 0 rs goff uoff) := by
  have hind : ∀ k : ℕ, (if rs.unif (uoff + k) < 1 - (0 : ℝ) then (1 : ℝ) else 0) = 1 := by
    intro k
    rw [if_pos (by simpa using h (uoff + k))]
  have key : ∀ b : ℝ, two_norms N b 0 rs goff uoff = norm_rvs 0 1 N rs.gauss goff := by
    intro b
    rw [two_norms_eq_map, norm_rvs]
    refine List.map_congr_left fun k _ => ?_
    rw [hind k]
    ring
  refine ⟨?_, key a, fun a' => (key a).trans (key a').symm⟩
  rw [binom_rvs, List.eq_replicate_iff]
  refine ⟨by simp, fun b hb => ?_⟩
  obtain ⟨k, -, rfl⟩ := List.mem_map.mp hb
  exact hind k

/-- Witness for C10 at N = 2, a = 5 over a concrete stream. -/
theorem two_norms_p_zero_witness :
    two_norms 2 5 0 ⟨fun _ => 3, fun _ => 1/2⟩ 0 0 =
      norm_rvs 0 1 2 (fun _ => (3 : ℝ)) 0 :=
  (two_norms_p_zero 2 5 ⟨fun _ => 3, fun _ => 1/2⟩ 0 0 (fun _ => by norm_num)).2.1

/-- C1 (code bug): the notebook sets `sigma_spike = 1 + a` and passes it as
the scale (standard deviation) of norm.rvs, while its own docstring says the
spike distribution has "STD = sqrt(1 + a)".  Evaluated at a = 3 with p = 1
(every draw comes from the spike component) and a unit standard-normal
input draw, the code returns the sample [4] = [(1 + 3) * 1], whereas a
spike standard deviation of √(1 + a) would scale the same unit draw to
√(1 + 3) * 1 = 2 ≠ 4. -/
theorem two_norms_spike_scale_bug :
    two_norms 1 3 1 ⟨fun _ => 1, fun _ => 1/2⟩ 0 0 = [(4 : ℝ)] ∧
    Real.sqrt (1 + 3) * 1 = 2 ∧ ((4 : ℝ) ≠ 2) := by
  refine ⟨?_, ?_, by norm_num⟩
  · rw [two_norms_eq_map]
    have hr : List.range 1 = [0] := rfl
    rw [hr, List.map_singleton, if_neg (by norm_num)]
    norm_num
  · rw [mul_one, show (1 + 3 : ℝ) = 2 ^ 2 by norm_num,
      Real.sqrt_sq (by norm_num : (0 : ℝ) ≤ 2)]
